import Mathlib

/-!
# Verification of the `evict` port-killer core

A shallow embedding of the Rust sources (`validation.rs`, `cli.rs`,
`port_service.rs`, `process_service.rs`) together with proofs of the
specification claims.  OS calls (`GetExtendedTcpTable`, `OpenProcess`,
`QueryFullProcessImageNameW`, `TerminateProcess`, `CloseHandle`) are
modelled by oracle structures recording the codes and data the OS would
supply; the Rust control flow over those answers is translated verbatim.
-/

set_option autoImplicit false
set_option linter.unusedVariables false

namespace Evict

/-! ## Validation (`src/validation.rs`) and CLI port parsing (`src/cli.rs`)

Rust's `str::parse::<u16>` accepts an optional leading `+` followed by one
or more ASCII decimal digits, and fails on overflow past `u16::MAX`.
`decimalValue?` is the unbounded decimal reading (the shape check plus the
numeric value); `parseU16` additionally enforces the `u16` bound, which is
exactly when Rust's checked accumulation never overflows. -/

/-- The unbounded decimal reading used by `str::parse::<u16>`: an optional
leading `+`, then one or more ASCII digits; `none` when the shape is wrong. -/
def decimalValue? (s : String) : Option Nat :=
  let t : List Char :=
    match s.data with
    | '+' :: rest => rest
    | l => l
  if t.isEmpty then none
  else if t.all (fun c => c.isDigit) then
    some (t.foldl (fun a c => a * 10 + (c.toNat - 48)) 0)
  else none

/-- Embedding of Rust `port_str.parse::<u16>()`: the decimal reading,
failing when the value exceeds `u16::MAX = 65535` (checked overflow). -/
def parseU16 (s : String) : Option Nat :=
  match decimalValue? s with
  | some v => if v ≤ 65535 then some v else none
  | none => none

/-- Embedding of `validation::validate_port` (src/validation.rs lines 7-19):
parse as `u16`, then reject the value `0`. -/
def validate_port (s : String) : Except String Nat :=
  match parseU16 s with
  | none => .error ("Port must be a valid number, got: " ++ s)
  | some port =>
    if port = 0 then .error "Port must be between 1 and 65535, got: 0"
    else .ok port

/-- Embedding of the port-parsing step of `cli::parse_args`
(src/cli.rs lines 58-61); the surrounding `env::args` handling is impure
and not needed by the claims. -/
def cliParsePort (s : String) : Except String Nat :=
  match parseU16 s with
  | none => .error ("Invalid port: \x27" ++ s ++ "\x27 is not a valid number")
  | some port => .ok port

/-! ## Port resolver (`src/port_service.rs`)

`GetExtendedTcpTable` is modelled by a `TcpOs` oracle: the result code and
`size` produced by the first (size-discovery) call, and the result code and
byte contents produced by the second (buffer-filling) call.  The Rust code
allocates `vec![0; size]` and then interprets the bytes as a
`MIB_TCPTABLE_OWNER_PID`: a `u32` count `dwNumEntries` at offset 0 followed
by 24-byte `MIB_TCPROW_OWNER_PID` records (six `u32` fields: `dwState`,
`dwLocalAddr`, `dwLocalPort`, `dwRemoteAddr`, `dwRemotePort`,
`dwOwningPid`), all little-endian on the target.  The unchecked pointer
reads of the source are modelled as `Option`-valued byte reads: a read past
the end of the allocation is `none` (undefined behavior), so the whole
function returns `Option (Except String (Option PortBinding))`, with
`none` marking an execution that faults. -/

/-- The `PortBinding` struct of src/port_service.rs. -/
structure PortBinding where
  pid : Nat
  port : Nat
  deriving Repr, DecidableEq

/-- Oracle for the two `GetExtendedTcpTable` calls. -/
structure TcpOs where
  /-- result code of the first (size-discovery) call -/
  sizeResult : Nat
  /-- the size the first call writes through its `&mut size` argument -/
  size : Nat
  /-- result code of the second (buffer-filling) call -/
  fillResult : Nat
  /-- the bytes the second call writes into the allocated buffer -/
  filled : List Nat
  deriving Repr

/-- `ERROR_INSUFFICIENT_BUFFER` (`windows::Win32::Foundation`). -/
def ERROR_INSUFFICIENT_BUFFER : Nat := 122

/-- The buffer after the second call: the allocation `vec![0; size]` holds
exactly `size` bytes, into which the OS wrote `filled`. -/
def TcpOs.buffer (os : TcpOs) : List Nat :=
  (os.filled ++ List.replicate os.size 0).take os.size

/-- Total little-endian `u32` read at `off`, with out-of-range bytes 0. -/
def readU32D (buf : List Nat) (off : Nat) : Nat :=
  buf.getD off 0 % 256 + 256 * (buf.getD (off + 1) 0 % 256) +
    65536 * (buf.getD (off + 2) 0 % 256) + 16777216 * (buf.getD (off + 3) 0 % 256)

/-- A `u32` read at `off`, `none` when any of the four bytes lies outside
the buffer (an out-of-bounds pointer read in the source). -/
def readU32 (buf : List Nat) (off : Nat) : Option Nat :=
  if off + 4 ≤ buf.length then some (readU32D buf off) else none

/-- `u16::from_be` on the little-endian target: swap the two bytes. -/
def fromBe16 (x : Nat) : Nat := x % 256 * 256 + x / 256 % 256

/-- Byte offset of record `i`: the records start at offset 4 (after
`dwNumEntries`) and each `MIB_TCPROW_OWNER_PID` is 24 bytes. -/
def entryOff (i : Nat) : Nat := 4 + 24 * i

/-- The scan loop of `find_process_by_port`: `n` records remain, the next
one is record `i`.  `dwLocalPort` is at field offset 8 and `dwOwningPid` at
field offset 20 inside a record; the code reads `dwLocalPort`, truncates to
`u16`, byte-swaps, compares, and reads `dwOwningPid` only on a match.
`none` marks an out-of-bounds read. -/
def scanEntries (buf : List Nat) (port : Nat) : Nat → Nat → Option (Option PortBinding)
  | 0, _ => some none
  | n + 1, i =>
    match readU32 buf (entryOff i + 8) with
    | none => none
    | some lp32 =>
      if fromBe16 (lp32 % 65536) = port then
        match readU32 buf (entryOff i + 20) with
        | none => none
        | some pid => some (some { pid := pid, port := port })
      else scanEntries buf port n (i + 1)

/-- Embedding of `port_service::find_process_by_port`
(src/port_service.rs lines 13-69) against a `TcpOs` oracle: the first call
must return `ERROR_INSUFFICIENT_BUFFER`, the second must return 0; then
`dwNumEntries` is read from the buffer and that many records are scanned.
The outer `Option` is `none` exactly when a pointer read goes out of
bounds. -/
def find_process_by_port (os : TcpOs) (port : Nat) :
    Option (Except String (Option PortBinding)) :=
  if os.sizeResult ≠ ERROR_INSUFFICIENT_BUFFER then
    some (.error ("Failed to query TCP table size: error code " ++ toString os.sizeResult))
  else if os.fillResult ≠ 0 then
    some (.error ("Failed to get TCP table: error code " ++ toString os.fillResult))
  else
    match readU32 os.buffer 0 with
    | none => none
    | some n => (scanEntries os.buffer port n 0).map .ok

/-- Record view of the table bytes, for stating first-match semantics. -/
structure TcpRow where
  dwLocalPort : Nat
  dwOwningPid : Nat
  deriving Repr, DecidableEq

/-- The record at index `i`, decoded with the total reads (meaningful when
the record is in bounds). -/
def rowAtD (buf : List Nat) (i : Nat) : TcpRow :=
  { dwLocalPort := readU32D buf (entryOff i + 8)
    dwOwningPid := readU32D buf (entryOff i + 20) }

/-- The first `n` records of the table, in the OS's table order. -/
def rows (buf : List Nat) (n : Nat) : List TcpRow :=
  (List.range n).map (rowAtD buf)

/-- A record matches the query: its `dwLocalPort`, truncated to `u16` and
converted from network to host byte order, equals the port. -/
def matchRow (port : Nat) (r : TcpRow) : Bool :=
  fromBe16 (r.dwLocalPort % 65536) == port

/-! ## Process controller (`src/process_service.rs`)

`OpenProcess`, `QueryFullProcessImageNameW`, `TerminateProcess` and
`CloseHandle` are modelled by a `ProcOs` oracle.  Each operation returns
its `Result` together with the trace of handle-related OS events it
performed, in order, so that the handle-lifecycle claims can be stated
over the trace. -/

/-- The access right an `OpenProcess` call requests. -/
inductive Access where
  /-- `PROCESS_QUERY_INFORMATION` -/
  | query
  /-- `PROCESS_TERMINATE` -/
  | terminate
  deriving Repr, DecidableEq

/-- One OS event performed by a process-controller operation. -/
inductive PEvent where
  /-- an `OpenProcess` call with the given access, pid, and outcome -/
  | openProc (access : Access) (pid : Nat) (ok : Bool)
  /-- a `QueryFullProcessImageNameW` call on the open handle -/
  | queryName (ok : Bool)
  /-- a `TerminateProcess` call on the open handle -/
  | terminateProc (exitCode : Nat) (ok : Bool)
  /-- a `CloseHandle` call -/
  | closeHandle
  deriving Repr, DecidableEq

/-- Oracle for the process-related OS calls. -/
structure ProcOs where
  /-- does `OpenProcess(PROCESS_QUERY_INFORMATION, false, pid)` succeed? -/
  openQueryOk : Bool
  /-- the error text when it fails -/
  openQueryErr : String
  /-- does `QueryFullProcessImageNameW` succeed? -/
  queryNameOk : Bool
  /-- the error text when it fails -/
  queryNameErr : String
  /-- the path it writes (already decoded from UTF-16) when it succeeds -/
  queryPath : String
  /-- does `OpenProcess(PROCESS_TERMINATE, false, pid)` succeed? -/
  openTermOk : Bool
  /-- the error text when it fails -/
  openTermErr : String
  /-- does `TerminateProcess(handle, 1)` succeed? -/
  termOk : Bool
  /-- the error text when it fails -/
  termErr : String

/-- The path separator used by the source (`'\x5c'`). -/
def sepChar : Char := Char.ofNat 92

/-- Embedding of `full_path.split('\x5c').next_back().unwrap_or(&full_path)`:
the text after the last path separator, or the whole string when it holds
no separator (Rust `split` always yields at least one piece, so the
`unwrap_or` default and the last piece coincide on a separator-free
string). -/
def lastComponent (path : String) : String :=
  String.mk ((path.data.reverse.takeWhile (fun c => c != sepChar)).reverse)

/-- Embedding of `get_process_name_from_handle`
(src/process_service.rs lines 27-57): query the image path, extract the
final component, reject an empty name.  Returns the `Result` and the OS
events performed on the open handle. -/
def get_process_name_from_handle (os : ProcOs) : Except String String × List PEvent :=
  if os.queryNameOk then
    let filename := lastComponent os.queryPath
    if filename = "" then (.error "Process name is empty", [.queryName true])
    else (.ok filename, [.queryName true])
  else
    (.error ("Failed to query process name: " ++ os.queryNameErr), [.queryName false])

/-- Embedding of `process_service::get_process_name`
(src/process_service.rs lines 13-24): open with query access, delegate to
the helper, close the handle. -/
def get_process_name (os : ProcOs) (pid : Nat) : Except String String × List PEvent :=
  if os.openQueryOk then
    let r := get_process_name_from_handle os
    (r.1, .openProc .query pid true :: (r.2 ++ [.closeHandle]))
  else
    (.error ("Failed to open process " ++ toString pid ++ ": " ++ os.openQueryErr),
      [.openProc .query pid false])

/-- Embedding of `process_service::kill_process`
(src/process_service.rs lines 61-76): open with terminate access, issue
`TerminateProcess(handle, 1)`, close the handle, return the terminate
result. -/
def kill_process (os : ProcOs) (pid : Nat) : Except String Unit × List PEvent :=
  if os.openTermOk then
    let r : Except String Unit :=
      if os.termOk then .ok ()
      else .error ("Failed to terminate process " ++ toString pid ++ ": " ++ os.termErr)
    (r, [.openProc .terminate pid true, .terminateProc 1 os.termOk, .closeHandle])
  else
    (.error ("Failed to open process " ++ toString pid ++ " for termination: "
        ++ os.openTermErr),
      [.openProc .terminate pid false])

/-- Number of `CloseHandle` events in a trace. -/
def closeCount (tr : List PEvent) : Nat :=
  tr.countP (fun e => match e with | .closeHandle => true | _ => false)

/-- Handle discipline checker: `d` handles are currently open; a successful
open is allowed only when no handle is open (so at most one is ever open),
a close only when one is open, and the trace must end with none open. -/
def balancedFrom : Nat → List PEvent → Bool
  | d, [] => d == 0
  | d, .openProc _ _ true :: rest => d == 0 && balancedFrom 1 rest
  | d, .openProc _ _ false :: rest => balancedFrom d rest
  | d, .closeHandle :: rest => d == 1 && balancedFrom 0 rest
  | d, .queryName _ :: rest => balancedFrom d rest
  | d, .terminateProc _ _ :: rest => balancedFrom d rest

/-! ## Concrete oracles used by witnesses and counterexamples -/

/-- A well-formed one-record table: local port 80 (bytes `0, 80` in network
order inside `dwLocalPort`), owning pid 1234. -/
def tableHappy : TcpOs := {
  sizeResult := 122
  size := 28
  fillResult := 0
  filled := [1,0,0,0, 0,0,0,0, 0,0,0,0, 0,80,0,0, 0,0,0,0, 0,0,0,0, 210,4,0,0] }

/-- A well-formed one-record table whose record for port 80 carries owning
pid 0, as the OS reports for e.g. TIME_WAIT endpoints. -/
def tablePidZero : TcpOs := {
  sizeResult := 122
  size := 28
  fillResult := 0
  filled := [1,0,0,0, 0,0,0,0, 0,0,0,0, 0,80,0,0, 0,0,0,0, 0,0,0,0, 0,0,0,0] }

/-- A 4-byte buffer that declares `dwNumEntries = 1`: the declared count
does not fit in the buffer. -/
def tableTruncated : TcpOs := { sizeResult := 122, size := 4, fillResult := 0, filled := [1,0,0,0] }

/-- First `GetExtendedTcpTable` call reports unexpected success (code 0). -/
def tableSizeFail : TcpOs := { sizeResult := 0, size := 0, fillResult := 0, filled := [] }

/-- Second `GetExtendedTcpTable` call fails with code 5. -/
def tableFillFail : TcpOs := { sizeResult := 122, size := 4, fillResult := 5, filled := [0,0,0,0] }

/-- A process whose every OS call succeeds; image path `C:\x5cw\x5cnode.exe`. -/
def procHappy : ProcOs := {
  openQueryOk := true
  openQueryErr := ""
  queryNameOk := true
  queryNameErr := ""
  queryPath := "C:\\w\\node.exe"
  openTermOk := true
  openTermErr := ""
  termOk := true
  termErr := "" }

/-- A process for which both `OpenProcess` calls fail. -/
def procOpenFail : ProcOs := {
  openQueryOk := false
  openQueryErr := "Access is denied."
  queryNameOk := false
  queryNameErr := ""
  queryPath := ""
  openTermOk := false
  openTermErr := "Access is denied."
  termOk := false
  termErr := "" }

/-- A process whose image path ends in a separator, so the extracted final
component is empty. -/
def procEmptyName : ProcOs := {
  openQueryOk := true
  openQueryErr := ""
  queryNameOk := true
  queryNameErr := ""
  queryPath := "C:\\w\\"
  openTermOk := true
  openTermErr := ""
  termOk := false
  termErr := "The parameter is incorrect." }

/-! ## Supporting lemmas -/

theorem TcpOs.buffer_length (os : TcpOs) : os.buffer.length = os.size := by
  simp only [TcpOs.buffer, List.length_take, List.length_append, List.length_replicate]
  omega

theorem readU32_in_bounds {buf : List Nat} {off : Nat} (h : off + 4 ≤ buf.length) :
    readU32 buf off = some (readU32D buf off) := if_pos h

/-- The scan loop, on a buffer that really contains records `i` to
`i + n - 1`, computes the first-match search over the decoded records. -/
theorem scanEntries_eq_find (buf : List Nat) (port : Nat) (n : Nat) :
    ∀ i, 4 + 24 * (i + n) ≤ buf.length →
      scanEntries buf port n i =
        some ((((List.range n).map (fun k => rowAtD buf (i + k))).find? (matchRow port)).map
          (fun r => { pid := r.dwOwningPid, port := port })) := by
  induction n with
  | zero => intro i h; simp [scanEntries]
  | succ n ih =>
    intro i h
    have h8 : entryOff i + 8 + 4 ≤ buf.length := by
      simp only [entryOff]; omega
    have h20 : entryOff i + 20 + 4 ≤ buf.length := by
      simp only [entryOff]; omega
    have hrec : 4 + 24 * ((i + 1) + n) ≤ buf.length := by omega
    simp only [scanEntries, readU32_in_bounds h8]
    by_cases hm : matchRow port (rowAtD buf i) = true
    · have hp : fromBe16 (readU32D buf (entryOff i + 8) % 65536) = port := by
        simpa [matchRow, rowAtD] using hm
      rw [if_pos hp, readU32_in_bounds h20, List.range_succ_eq_map]
      simp only [List.map_cons, Nat.add_zero]
      rw [List.find?_cons_of_pos _ (by simpa using hm)]
      simp [rowAtD]
    · have hp : ¬fromBe16 (readU32D buf (entryOff i + 8) % 65536) = port := by
        simpa [matchRow, rowAtD] using hm
      rw [if_neg hp, ih (i + 1) hrec, List.range_succ_eq_map]
      simp only [List.map_cons, Nat.add_zero, List.map_map]
      rw [List.find?_cons_of_neg _ (by simpa using hm)]
      have hfun : ((fun k => rowAtD buf (i + k)) ∘ Nat.succ) = fun k => rowAtD buf (i + 1 + k) := by
        funext k
        simp only [Function.comp_apply]
        congr 1
        omega
      rw [hfun]

/-- `find_process_by_port` on a table honoring the OS contract (both calls
succeed and the buffer holds the declared records) equals the first-match
search over the decoded record list. -/
theorem find_process_by_port_eq_find (os : TcpOs) (port : Nat)
    (h1 : os.sizeResult = ERROR_INSUFFICIENT_BUFFER)
    (h2 : os.fillResult = 0)
    (hb : 4 + 24 * readU32D os.buffer 0 ≤ os.size) :
    find_process_by_port os port =
      some (.ok (((rows os.buffer (readU32D os.buffer 0)).find? (matchRow port)).map
        (fun r => { pid := r.dwOwningPid, port := port }))) := by
  have hlen : os.buffer.length = os.size := os.buffer_length
  have h0 : (0 : Nat) + 4 ≤ os.buffer.length := by omega
  unfold find_process_by_port
  rw [if_neg (by simp [h1]), if_neg (by simp [h2])]
  have hhdr : readU32 os.buffer 0 = some (readU32D os.buffer 0) := by
    simpa using readU32_in_bounds h0
  rw [hhdr]
  dsimp only
  rw [scanEntries_eq_find os.buffer port (readU32D os.buffer 0) 0 (by omega)]
  simp [rows]

/-! ## Claim theorems: port resolver -/

/-- C1: for every port `p` in `1..=65535`, when both OS table calls succeed
(the first returns the buffer-too-small signal, the second returns success)
and the buffer holds the records it declares, `find_process_by_port p`
scans the records in the OS's table order and returns `Ok (some binding)`
built from the first record whose local-port field, converted from network
to host byte order, equals `p` — with `binding.port = p` and `binding.pid`
that record's owning-process field (`List.find?` is exactly first-match in
list order); if no record matches it returns `Ok none`, an `Except.ok`
outcome distinct from every `Except.error`. -/
theorem find_process_by_port_first_match (os : TcpOs) (port : Nat)
    (hp1 : 1 ≤ port) (hp2 : port ≤ 65535)
    (h1 : os.sizeResult = ERROR_INSUFFICIENT_BUFFER)
    (h2 : os.fillResult = 0)
    (hb : 4 + 24 * readU32D os.buffer 0 ≤ os.size) :
    find_process_by_port os port =
      some (.ok (((rows os.buffer (readU32D os.buffer 0)).find? (matchRow port)).map
        (fun r => { pid := r.dwOwningPid, port := port }))) ∧
    ((rows os.buffer (readU32D os.buffer 0)).find? (matchRow port) = none →
      find_process_by_port os port = some (.ok none)) ∧
    (∀ e : String,
      (some (.ok none) : Option (Except String (Option PortBinding))) ≠ some (.error e)) := by
  have heq := find_process_by_port_eq_find os port h1 h2 hb
  refine ⟨heq, ?_, ?_⟩
  · intro hnone
    rw [heq, hnone]
    rfl
  · intro e h
    cases h

theorem find_process_by_port_first_match_witness :
    find_process_by_port tableHappy 80 =
      some (.ok (((rows tableHappy.buffer (readU32D tableHappy.buffer 0)).find? (matchRow 80)).map
        (fun r => { pid := r.dwOwningPid, port := 80 }))) :=
  (find_process_by_port_first_match tableHappy 80 (by decide) (by decide)
    (by decide) (by decide) (by decide)).1

/-- C2 counterexample: the code copies the matching record's `dwOwningPid`
into the binding without any zero check, so a table reporting owning pid 0
for the queried port (as the OS does for e.g. TIME_WAIT endpoints) yields a
successful binding with `pid = 0`, refuting "binding.pid is strictly
greater than zero ... for any contents the OS table may report". -/
theorem find_process_by_port_pid_zero_counterexample :
    find_process_by_port tablePidZero 80 = some (.ok (some { pid := 0, port := 80 })) := by
  rfl

/-- C2 (amended): whenever `find_process_by_port p` returns `Ok (some b)`,
`b.pid` equals the matching record's owning-process field and `b.port = p`;
in particular `b.pid > 0` whenever every record the OS reports carries a
nonzero owning pid — the code itself performs no zero check. -/
theorem find_process_by_port_pid_pos (os : TcpOs) (port : Nat)
    (h1 : os.sizeResult = ERROR_INSUFFICIENT_BUFFER)
    (h2 : os.fillResult = 0)
    (hb : 4 + 24 * readU32D os.buffer 0 ≤ os.size)
    (hpid : ∀ r ∈ rows os.buffer (readU32D os.buffer 0), 0 < r.dwOwningPid) :
    ∀ b : PortBinding, find_process_by_port os port = some (.ok (some b)) →
      0 < b.pid ∧ b.port = port := by
  intro b hfind
  rw [find_process_by_port_eq_find os port h1 h2 hb] at hfind
  cases hf : (rows os.buffer (readU32D os.buffer 0)).find? (matchRow port) with
  | none => rw [hf] at hfind; simp at hfind
  | some r =>
    rw [hf] at hfind
    simp only [Option.map_some', Option.some_inj, Except.ok.injEq] at hfind
    have hr := hpid r (List.mem_of_find?_eq_some hf)
    rw [← hfind]
    exact ⟨hr, rfl⟩

theorem find_process_by_port_pid_pos_witness :
    0 < (1234 : Nat) ∧ (80 : Nat) = 80 :=
  find_process_by_port_pid_pos tableHappy 80 (by decide) (by decide) (by decide)
    (by decide) { pid := 1234, port := 80 } (by rfl)

/-- C3 counterexample: the decode performs no validation of the buffer
length against the declared record count — a 4-byte table declaring
`dwNumEntries = 1` drives the record read past the end of the allocation
(modelled as the faulting outcome `none`), refuting "the table decode
validates the buffer length against the declared record count so that
every record read stays within the bounds of the buffer". -/
theorem find_process_by_port_oob_counterexample :
    find_process_by_port tableTruncated 80 = none := by
  rfl

/-- C3 (amended): `find_process_by_port` performs no bounds validation of
its own; every record read stays within the buffer — and the function
completes without fault, returning `Ok _` — exactly under the OS contract
that the filled buffer really holds the `dwNumEntries` records it declares
(`4 + 24 * dwNumEntries ≤ size`). -/
theorem find_process_by_port_no_oob_under_contract (os : TcpOs) (port : Nat)
    (hp1 : 1 ≤ port) (hp2 : port ≤ 65535)
    (h1 : os.sizeResult = ERROR_INSUFFICIENT_BUFFER)
    (h2 : os.fillResult = 0)
    (hb : 4 + 24 * readU32D os.buffer 0 ≤ os.size) :
    ∃ res : Option PortBinding, find_process_by_port os port = some (.ok res) :=
  ⟨_, find_process_by_port_eq_find os port h1 h2 hb⟩

theorem find_process_by_port_no_oob_under_contract_witness :
    ∃ res : Option PortBinding, find_process_by_port tableHappy 80 = some (.ok res) :=
  find_process_by_port_no_oob_under_contract tableHappy 80 (by decide) (by decide)
    (by decide) (by decide) (by decide)

/-- C4: the two-phase protocol's error handling. If the first
(size-discovery) call returns any code other than
`ERROR_INSUFFICIENT_BUFFER` — including unexpected success, code 0 — the
function returns `Err` with that OS code embedded in the message; if the
first call returns the expected signal and the second (buffer-filling)
call returns any non-zero code, the function returns `Err` with that code
embedded.  The model performs exactly one call per phase, so no retry is
attempted in either case. -/
theorem find_process_by_port_error_codes (os : TcpOs) (port : Nat) :
    (os.sizeResult ≠ ERROR_INSUFFICIENT_BUFFER →
      find_process_by_port os port =
        some (.error ("Failed to query TCP table size: error code "
          ++ toString os.sizeResult)) ∧
      ∃ pre suf, "Failed to query TCP table size: error code " ++ toString os.sizeResult
        = pre ++ toString os.sizeResult ++ suf) ∧
    (os.sizeResult = ERROR_INSUFFICIENT_BUFFER → os.fillResult ≠ 0 →
      find_process_by_port os port =
        some (.error ("Failed to get TCP table: error code " ++ toString os.fillResult)) ∧
      ∃ pre suf, "Failed to get TCP table: error code " ++ toString os.fillResult
        = pre ++ toString os.fillResult ++ suf) := by
  constructor
  · intro h
    refine ⟨?_, "Failed to query TCP table size: error code ", "", ?_⟩
    · unfold find_process_by_port
      rw [if_pos h]
    · rw [String.append_empty]
  · intro hs hf
    refine ⟨?_, "Failed to get TCP table: error code ", "", ?_⟩
    · unfold find_process_by_port
      rw [if_neg (by simp [hs]), if_pos hf]
    · rw [String.append_empty]

theorem find_process_by_port_error_codes_witness :
    find_process_by_port tableSizeFail 80 =
      some (.error ("Failed to query TCP table size: error code "
        ++ toString tableSizeFail.sizeResult)) ∧
    find_process_by_port tableFillFail 80 =
      some (.error ("Failed to get TCP table: error code "
        ++ toString tableFillFail.fillResult)) :=
  ⟨((find_process_by_port_error_codes tableSizeFail 80).1 (by decide)).1,
    ((find_process_by_port_error_codes tableFillFail 80).2 (by decide) (by decide)).1⟩

theorem parseU16_eq_some_iff (s : String) (p : Nat) :
    parseU16 s = some p ↔ decimalValue? s = some p ∧ p ≤ 65535 := by
  unfold parseU16
  cases h : decimalValue? s with
  | none => simp
  | some v =>
    dsimp only
    by_cases hv : v ≤ 65535
    · rw [if_pos hv]
      constructor
      · intro h1
        cases Option.some_inj.mp h1
        exact ⟨rfl, hv⟩
      · exact fun h1 => h1.1
    · rw [if_neg hv]
      constructor
      · intro hc; cases hc
      · rintro ⟨h1, h2⟩
        cases Option.some_inj.mp h1
        exact absurd h2 hv

theorem validate_port_ok_iff (s : String) (p : Nat) :
    validate_port s = .ok p ↔ decimalValue? s = some p ∧ 1 ≤ p ∧ p ≤ 65535 := by
  unfold validate_port
  cases h : parseU16 s with
  | none =>
    dsimp only
    constructor
    · intro hc; cases hc
    · rintro ⟨h1, h2, h3⟩
      rw [(parseU16_eq_some_iff s p).mpr ⟨h1, h3⟩] at h
      cases h
  | some v =>
    dsimp only
    have hv := (parseU16_eq_some_iff s v).mp h
    by_cases h0 : v = 0
    · subst h0
      simp only [if_pos rfl]
      constructor
      · intro hc; cases hc
      · rintro ⟨h1, h2, h3⟩
        rw [hv.1] at h1
        cases Option.some_inj.mp h1
        omega
    · simp only [if_neg h0, Except.ok.injEq]
      constructor
      · rintro rfl; exact ⟨hv.1, by omega, hv.2⟩
      · rintro ⟨h1, h2, h3⟩
        have hps : parseU16 s = some p := (parseU16_eq_some_iff s p).mpr ⟨h1, h3⟩
        rw [h] at hps
        exact Option.some_inj.mp hps

/-! ## Claim theorems: process controller -/

theorem head?_append_left (p t : String) (hp : p.data ≠ []) :
    (p ++ t).data.head? = p.data.head? := by
  rw [String.data_append]
  exact List.head?_append_of_ne_nil _ hp

theorem empty_name_msg_ne_query_failure (e : String) :
    ("Process name is empty" : String) ≠ "Failed to query process name: " ++ e := by
  intro h
  have h2 := congrArg (fun s => s.data.head?) h
  simp only at h2
  rw [head?_append_left _ e (by decide)] at h2
  revert h2
  decide

theorem sep_not_in_lastComponent (path : String) : sepChar ∉ (lastComponent path).data := by
  intro hmem
  have hd : (lastComponent path).data
      = (path.data.reverse.takeWhile (fun c => c != sepChar)).reverse := rfl
  rw [hd, List.mem_reverse] at hmem
  have hx := List.mem_takeWhile_imp hmem
  simp at hx

/-- C5: in both `get_process_name` and `kill_process`, whenever the
`OpenProcess` call succeeds the trace holds exactly one `CloseHandle`
event, and on every path (open success or failure, name-query failure,
empty-name error, termination failure) the trace obeys the handle
discipline `balancedFrom 0`: a handle is opened only when none is open (so
at most one is ever open), closed only when open, and no handle remains
open when the function returns. -/
theorem handle_lifecycle (os : ProcOs) (pid : Nat) :
    (os.openQueryOk = true → closeCount (get_process_name os pid).2 = 1) ∧
    balancedFrom 0 (get_process_name os pid).2 = true ∧
    (os.openTermOk = true → closeCount (kill_process os pid).2 = 1) ∧
    balancedFrom 0 (kill_process os pid).2 = true := by
  refine ⟨?_, ?_, ?_, ?_⟩
  · intro ho
    by_cases hq : os.queryNameOk <;>
      by_cases he : lastComponent os.queryPath = "" <;>
        simp [get_process_name, get_process_name_from_handle, closeCount, ho, hq, he,
          List.countP_cons, List.countP] <;> rfl
  · by_cases ho : os.openQueryOk <;>
      by_cases hq : os.queryNameOk <;>
        by_cases he : lastComponent os.queryPath = "" <;>
          simp [get_process_name, get_process_name_from_handle, balancedFrom, ho, hq, he]
  · intro ho
    by_cases ht : os.termOk <;>
      simp [kill_process, closeCount, ho, ht, List.countP_cons, List.countP] <;> rfl
  · by_cases ho : os.openTermOk <;>
      by_cases ht : os.termOk <;>
        simp [kill_process, balancedFrom, ho, ht]

theorem handle_lifecycle_witness :
    closeCount (get_process_name procHappy 7).2 = 1 ∧
    closeCount (kill_process procHappy 7).2 = 1 :=
  ⟨(handle_lifecycle procHappy 7).1 (by rfl), (handle_lifecycle procHappy 7).2.2.1 (by rfl)⟩

/-- C6: whenever `get_process_name` returns `Ok name`, `name` is the text
after the last path separator of the queried executable path (extension
included) — and differs from the full path whenever that path holds a
separator, since the extracted component never holds one; if the extracted
component is empty, the result is the error `"Process name is empty"`,
distinct from every query-failure error. -/
theorem get_process_name_last_component (os : ProcOs) (pid : Nat) :
    (∀ name, (get_process_name os pid).1 = .ok name →
      name = lastComponent os.queryPath ∧
      (sepChar ∈ os.queryPath.data → name ≠ os.queryPath)) ∧
    (os.openQueryOk = true → os.queryNameOk = true → lastComponent os.queryPath = "" →
      (get_process_name os pid).1 = .error "Process name is empty" ∧
      ∀ e, ("Process name is empty" : String) ≠ "Failed to query process name: " ++ e) := by
  constructor
  · intro name hok
    by_cases ho : os.openQueryOk
    · by_cases hq : os.queryNameOk
      · by_cases he : lastComponent os.queryPath = ""
        · simp [get_process_name, get_process_name_from_handle, ho, hq, he] at hok
        · simp [get_process_name, get_process_name_from_handle, ho, hq, he] at hok
          subst hok
          refine ⟨rfl, ?_⟩
          intro hsep heq
          apply sep_not_in_lastComponent os.queryPath
          rw [heq]
          exact hsep
      · simp [get_process_name, get_process_name_from_handle, ho, hq] at hok
    · simp [get_process_name, ho] at hok
  · intro ho hq he
    refine ⟨?_, empty_name_msg_ne_query_failure⟩
    simp [get_process_name, get_process_name_from_handle, ho, hq, he]

theorem get_process_name_last_component_witness :
    "node.exe" = lastComponent procHappy.queryPath ∧
    (sepChar ∈ procHappy.queryPath.data → "node.exe" ≠ procHappy.queryPath) :=
  (get_process_name_last_component procHappy 7).1 "node.exe" (by rfl)

/-- C7: `get_process_name` opens the process with query access and
`kill_process` with terminate access (the first trace event records the
requested access right); when the open fails, the function returns `Err`
with the system reason embedded and the trace holds only the failed open —
no name query, no termination request, no close. -/
theorem open_failure_scoped_access (os : ProcOs) (pid : Nat) :
    (get_process_name os pid).2.head? = some (.openProc .query pid os.openQueryOk) ∧
    (kill_process os pid).2.head? = some (.openProc .terminate pid os.openTermOk) ∧
    (os.openQueryOk = false →
      get_process_name os pid =
        (.error ("Failed to open process " ++ toString pid ++ ": " ++ os.openQueryErr),
          [.openProc .query pid false])) ∧
    (os.openTermOk = false →
      kill_process os pid =
        (.error ("Failed to open process " ++ toString pid ++ " for termination: "
            ++ os.openTermErr),
          [.openProc .terminate pid false])) := by
  refine ⟨?_, ?_, ?_, ?_⟩
  · by_cases ho : os.openQueryOk <;> simp [get_process_name, ho]
  · by_cases ho : os.openTermOk <;> simp [kill_process, ho]
  · intro ho; simp [get_process_name, ho]
  · intro ho; simp [kill_process, ho]

theorem open_failure_scoped_access_witness :
    get_process_name procOpenFail 7 =
      (.error ("Failed to open process " ++ toString 7 ++ ": " ++ procOpenFail.openQueryErr),
        [.openProc .query 7 false]) ∧
    kill_process procOpenFail 7 =
      (.error ("Failed to open process " ++ toString 7 ++ " for termination: "
          ++ procOpenFail.openTermErr),
        [.openProc .terminate 7 false]) :=
  ⟨(open_failure_scoped_access procOpenFail 7).2.2.1 (by rfl),
    (open_failure_scoped_access procOpenFail 7).2.2.2 (by rfl)⟩

/-- C8: once the terminate-access open succeeds, `kill_process` performs
exactly one `TerminateProcess` request, with the fixed exit code 1, then
closes the handle — the trace is exactly open, terminate, close, with no
waiting or verification step — and returns `Ok ()` exactly when the OS
accepts the termination request. -/
theorem kill_process_single_terminate (os : ProcOs) (pid : Nat)
    (h : os.openTermOk = true) :
    (kill_process os pid).2 =
      [.openProc .terminate pid true, .terminateProc 1 os.termOk, .closeHandle] ∧
    ((kill_process os pid).1 = .ok () ↔ os.termOk = true) := by
  constructor
  · simp [kill_process, h]
  · by_cases ht : os.termOk <;> simp [kill_process, h, ht]

theorem kill_process_single_terminate_witness :
    (kill_process procHappy 7).2 =
      [.openProc .terminate 7 true, .terminateProc 1 procHappy.termOk, .closeHandle] :=
  (kill_process_single_terminate procHappy 7 (by rfl)).1

/-! ## Claim theorems: validation and CLI -/

theorem number_msg_ne_range_msg (t : String) :
    "Port must be a valid number, got: " ++ t ≠ "Port must be between 1 and 65535, got: 0" := by
  intro h
  have h2 := congrArg (fun s => s.data.take 20) h
  simp only [String.data_append] at h2
  rw [List.take_append_of_le_length (by decide)] at h2
  revert h2
  decide

/-- C9: `validate_port s` returns `Ok p` exactly when `s` reads as a
decimal integer `p` (optional leading `+`, digits only) with
`1 ≤ p ≤ 65535`; every other string is rejected with `Err`; the input
`"0"` yields the message `"Port must be between 1 and 65535, got: 0"` and
the input `"abc"` the non-numeric message
`"Port must be a valid number, got: abc"`. -/
theorem validate_port_spec (s : String) (p : Nat) :
    (validate_port s = .ok p ↔ decimalValue? s = some p ∧ 1 ≤ p ∧ p ≤ 65535) ∧
    ((∀ q, validate_port s ≠ .ok q) → ∃ msg, validate_port s = .error msg) ∧
    validate_port "0" = .error "Port must be between 1 and 65535, got: 0" ∧
    validate_port "abc" = .error "Port must be a valid number, got: abc" := by
  refine ⟨validate_port_ok_iff s p, ?_, by rfl, by rfl⟩
  intro hnone
  cases hv : validate_port s with
  | error msg => exact ⟨msg, rfl⟩
  | ok q => exact absurd hv (hnone q)

theorem validate_port_spec_witness :
    validate_port "8080" = .ok 8080 :=
  (validate_port_spec "8080" 8080).1.mpr ⟨by decide, by decide, by decide⟩

/-- C10: every decimal string denoting an integer above 65535 is rejected
by both `validate_port` and the `parse_args` port parse through the `u16`
parse-failure branch, producing the respective "not a valid number"
message and not the range message; the range message
`"Port must be between 1 and 65535, got: 0"` is produced only when the
parse succeeded with value 0. -/
theorem overflow_rejected_via_parse (s : String) (n : Nat)
    (h1 : decimalValue? s = some n) (h2 : 65535 < n) :
    validate_port s = .error ("Port must be a valid number, got: " ++ s) ∧
    cliParsePort s = .error ("Invalid port: \x27" ++ s ++ "\x27 is not a valid number") ∧
    validate_port s ≠ .error "Port must be between 1 and 65535, got: 0" ∧
    (∀ t, validate_port t = .error "Port must be between 1 and 65535, got: 0" →
      parseU16 t = some 0) := by
  have hp : parseU16 s = none := by
    unfold parseU16
    rw [h1]
    dsimp only
    rw [if_neg (by omega)]
  refine ⟨?_, ?_, ?_, ?_⟩
  · unfold validate_port
    rw [hp]
  · unfold cliParsePort
    rw [hp]
  · unfold validate_port
    rw [hp]
    intro hcontra
    exact number_msg_ne_range_msg s (by injection hcontra)
  · intro t ht
    unfold validate_port at ht
    cases hpt : parseU16 t with
    | none =>
      rw [hpt] at ht
      exact absurd (by injection ht) (number_msg_ne_range_msg t)
    | some v =>
      rw [hpt] at ht
      dsimp only at ht
      by_cases hv : v = 0
      · rw [hv]
      · rw [if_neg hv] at ht
        cases ht

theorem overflow_rejected_via_parse_witness :
    validate_port "65536" = .error ("Port must be a valid number, got: " ++ "65536") ∧
    cliParsePort "65536" =
      .error ("Invalid port: \x27" ++ "65536" ++ "\x27 is not a valid number") :=
  ⟨(overflow_rejected_via_parse "65536" 65536 (by decide) (by decide)).1,
    (overflow_rejected_via_parse "65536" 65536 (by decide) (by decide)).2.1⟩

end Evict
